import Mathlib

/-!
Shallow embedding of the orchestration layer of the chord-recognition
repository (chord_recognition.py, batch_chord_recognition.py, annotation.py),
together with theorems settling the specification claims about it.

Numeric probability values are modelled as rationals (exact arithmetic);
`np.mean(·, axis=0)` is embedded by its documented semantics, elementwise
sum divided by the number of rows.
-/

namespace ChordRec

/- ===== chord_recognition.py : ensemble probability averaging ===== -/

/-- Elementwise addition of two probability vectors (numpy broadcasting on
equal-shape 1-D arrays). -/
def vecAdd (u v : List ℚ) : List ℚ := List.zipWith (· + ·) u v

/-- Elementwise sum of a stack of equal-shape vectors (`np.sum(vs, axis=0)`). -/
def npSumAxis0 : List (List ℚ) → List ℚ
  | [] => []
  | v :: vs => vs.foldl vecAdd v

/-- `np.mean(vs, axis=0)`: the elementwise sum divided by the number of rows. -/
def npMeanAxis0 (vs : List (List ℚ)) : List ℚ :=
  (npSumAxis0 vs).map (fun x => x / (vs.length : ℚ))

/-- Line 89 / 114 / 141 of chord_recognition.py:
`probs = [np.mean([p[i] for p in probs], axis=0) for i in range(len(probs[0]))]`.
Each element of `probs` is one model's output, a list of probability vectors
indexed the same way for every model. -/
def ensembleAverage (probs : List (List (List ℚ))) : List (List ℚ) :=
  (List.range probs.headI.length).map
    (fun i => npMeanAxis0 (probs.map (fun p => p.getD i [])))

/- ===== path helpers (os.path.basename, pathlib stem / name) ===== -/

/-- `os.path.basename`: the part of the path after the last slash. -/
def basename (s : String) : String :=
  ((s.toList.reverse.takeWhile (fun c => c ≠ '/')).reverse).asString

/-- `pathlib.Path.name`: final path component. -/
def pathName (p : String) : String := basename p

/-- Stem of a file name: the name with its last dot-suffix removed, unless the
only dot is the leading character (pathlib semantics). -/
def stemChars (cs : List Char) : List Char :=
  match cs.reverse.dropWhile (fun c => c ≠ '.') with
  | [] => cs
  | _ :: rest => if rest = [] then cs else rest.reverse

/-- `pathlib.Path.stem`: final path component without its last suffix. -/
def pathStem (p : String) : String := (stemChars (basename p).toList).asString

/-- Python `str.endswith`. -/
def strEndsWith (s suff : String) : Bool := suff.toList.isSuffixOf s.toList

/-- Python slicing `s[:-10]` (empty when the string has at most 10 chars). -/
def strDropLast10 (s : String) : String :=
  (s.toList.take (s.length - 10)).asString

/- ===== batch_chord_recognition.py ===== -/

/-- Outcome of one `recognizer.recognize_and_save` call: it either returns
normally or raises an exception carrying a message. -/
inductive RecogResult where
  | ok
  | err (msg : String)
deriving DecidableEq

/-- Whether the call returned normally. -/
def RecogResult.isOk : RecogResult → Bool
  | .ok => true
  | .err _ => false

/-- One entry of `stats["errors"]` (lines 116-122). -/
structure ErrorRecord where
  file : String
  output : String
  error : String
deriving DecidableEq

/-- The `stats` dictionary of `estimate_chords_batch`. -/
structure BatchStats where
  total : Nat
  success : Nat
  failed : Nat
  errors : List ErrorRecord
deriving DecidableEq

/-- The error record the except-branch appends for audio path `p` raising
message `e`: file name, output lab-file name, message (lines 116-122). -/
def errRecord (p e : String) : ErrorRecord :=
  ⟨pathName p, pathStem p ++ ".lab", e⟩

/-- Body of the per-file loop of `estimate_chords_batch` (lines 105-122):
run recognition, bump success on return, bump failed and append an error
record on exception. -/
def stepFile (recognize : String → RecogResult) (stats : BatchStats)
    (p : String) : BatchStats :=
  match recognize p with
  | .ok => { stats with success := stats.success + 1 }
  | .err e => { stats with failed := stats.failed + 1,
                           errors := stats.errors ++ [errRecord p e] }

/-- `estimate_chords_batch` (lines 81-124): initial stats with
`total = len(wav_files)`, then the per-file loop over all files. The
recognizer is abstracted as a function from the audio path to the outcome of
its `recognize_and_save` call. -/
def estimate_chords_batch (recognize : String → RecogResult)
    (wav_files : List String) : BatchStats :=
  wav_files.foldl (stepFile recognize)
    { total := wav_files.length, success := 0, failed := 0, errors := [] }

/-- Result of running `main` (lines 127-176): either the startup
`FileNotFoundError` escapes uncaught (the interpreter then exits nonzero), or
the process reaches a `sys.exit` with a code, carrying the batch statistics
when `estimate_chords_batch` was run and `none` when it never started. -/
inductive MainOutcome where
  | raisedNotFound (msg : String)
  | exited (code : Nat) (stats : Option BatchStats)
deriving DecidableEq

/-- The environment `main` runs in: whether the input directory exists, the
sorted wav files found under it, and the behaviour of per-file recognition. -/
structure BatchEnv where
  inputDirExists : Bool
  wavFiles : List String
  recognize : String → RecogResult

/-- `main` of batch_chord_recognition.py (lines 127-176): raise
`FileNotFoundError` if the input directory is missing; `sys.exit(1)` before
any recognition when no wav file is found; otherwise run the batch and exit 0
exactly when no file failed (lines 174-176). -/
def batch_main (env : BatchEnv) : MainOutcome :=
  if env.inputDirExists = false then
    .raisedNotFound "入力ディレクトリが見つかりません"
  else if env.wavFiles.length = 0 then
    .exited 1 none
  else
    let stats := estimate_chords_batch env.recognize env.wavFiles
    .exited (if stats.failed = 0 then 0 else 1) (some stats)

/-- Process exit status of a `main` run: an uncaught exception makes the
Python interpreter exit with status 1; `sys.exit(c)` exits with `c`. -/
def processExitCode : MainOutcome → Nat
  | .raisedNotFound _ => 1
  | .exited c _ => c

/- ===== chord_recognition.py : command-line entry point ===== -/

/-- What the `__main__` block does: run recognition with the given audio,
output and dictionary arguments, or print the usage text and `exit(0)`. -/
inductive CliAction where
  | recognize (audio lab chordDict : String)
  | usageExit (code : Nat)
deriving DecidableEq

/-- The `__main__` block of chord_recognition.py (lines 147-159). `argv`
includes the script name in position 0, as `sys.argv` does. -/
def chordRecognitionCli (argv : List String) : CliAction :=
  if argv.length = 3 then
    .recognize (argv.getD 1 "") (argv.getD 2 "") "submission"
  else if argv.length = 4 then
    .recognize (argv.getD 1 "") (argv.getD 2 "") (argv.getD 3 "")
  else
    .usageExit 0

/- ===== annotation.py : process_tar_mixed_mp3s ===== -/

/-- A tar archive member: its name and whether it is a regular file. -/
structure TarMember where
  name : String
  isfile : Bool
deriving DecidableEq

/-- Lines 26-31: names of the members kept in the `files` dict — regular
files ending in `other.mp3` or `bass.mp3`. -/
def stemFiles (tar : List TarMember) : List String :=
  (tar.filter (fun m =>
    m.isfile && (strEndsWith m.name "other.mp3" || strEndsWith m.name "bass.mp3"))).map
    (fun m => m.name)

/-- Lines 32-35: the `track_ids` set — `name[:-10]` for every kept name
ending in `other.mp3`, each distinct id once. -/
def trackIds (tar : List TarMember) : List String :=
  (((stemFiles tar).filter (fun n => strEndsWith n "other.mp3")).map strDropLast10).dedup

/-- Line 41: a track id is eligible for mixing when both stem files are in
the archive. -/
def bothStems (files : List String) (tid : String) : Bool :=
  files.contains (tid ++ ".other.mp3") && files.contains (tid ++ ".bass.mp3")

/-- The three temporary files one track's processing extracts and mixes into
(lines 42-52); their names are supplied by the OS. -/
structure TempFiles where
  other : String
  bass : String
  mix : String

/-- The amix filter argument of line 62. -/
def amixFilter : String :=
  "[0:a][1:a]amix=inputs=2:duration=longest:dropout_transition=0[mix]"

/-- Lines 54-66: the ffmpeg command — overwrite flag `-y`, the two stem
inputs each after `-i`, and the mixed output path last. -/
def ffmpegCmd (otherPath bassPath mixPath : String) : List String :=
  ["ffmpeg", "-y", "-i", otherPath, "-i", bassPath,
   "-filter_complex", amixFilter, "-map", "[mix]", mixPath]

/-- The per-track loop of lines 38-71. `runCmd` gives the exit status of
`subprocess.run` on a command; `check=True` raises on a nonzero status, which
aborts the whole loop since nothing catches it. Returns the commands invoked
in order, and either the list of lab file names written (in loop order) or
the exit status of the failed command. -/
def processTracks (runCmd : List String → Nat) (tmp : String → TempFiles)
    (files : List String) : List String → List (List String) × Except Nat (List String)
  | [] => ([], .ok [])
  | tid :: rest =>
    if bothStems files tid then
      let cmd := ffmpegCmd (tmp tid).other (tmp tid).bass (tmp tid).mix
      if runCmd cmd = 0 then
        let r := processTracks runCmd tmp files rest
        (cmd :: r.1, r.2.map (fun labs => (basename tid ++ ".lab") :: labs))
      else
        ([cmd], .error (runCmd cmd))
    else
      processTracks runCmd tmp files rest

/-- Observable result of one `process_tar_mixed_mp3s` run. -/
structure MixedRunResult where
  message : String
  invoked : List (List String)
  outcome : Except Nat (List String)

/-- `process_tar_mixed_mp3s` (lines 23-71): build the stem-file map and the
track-id set, print the `Found ... tracks` message (line 37), then run the
per-track loop. Lab files are written as `basename(tid) + ".lab"` in the
output directory (lines 68-71). -/
def process_tar_mixed_mp3s (runCmd : List String → Nat)
    (tmp : String → TempFiles) (tar : List TarMember) : MixedRunResult :=
  let files := stemFiles tar
  let tids := trackIds tar
  let r := processTracks runCmd tmp files tids
  { message := "Found " ++ toString tids.length ++ " tracks with \x27other.mp3\x27 files."
    invoked := r.1
    outcome := r.2 }

/- ===== helper lemmas : the batch fold ===== -/

/-- Whether the call raised. -/
def RecogResult.isErr : RecogResult → Bool
  | .ok => false
  | .err _ => true

/-- The error record (if any) that processing path `p` appends. -/
def errRecordOf (r : String → RecogResult) (p : String) : Option ErrorRecord :=
  match r p with
  | .ok => none
  | .err e => some (errRecord p e)

/- concrete scenario data used by the witness theorems -/

/-- An external-command runner whose every invocation succeeds. -/
def runCmd0 : List String → Nat := fun _ => 0

/-- An external-command runner whose every invocation exits with status 1. -/
def runCmd1 : List String → Nat := fun _ => 1

/-- A fixed supplier of temporary file names. -/
def tmp0 : String → TempFiles := fun _ => ⟨"to", "tb", "tm"⟩

/-- Archive with both stems for track `A` and only the other stem for `B`. -/
def tarAB : List TarMember :=
  [⟨"A.other.mp3", true⟩, ⟨"A.bass.mp3", true⟩, ⟨"B.other.mp3", true⟩]

/-- Archive with both stems for the single track `T`. -/
def tarT : List TarMember := [⟨"T.other.mp3", true⟩, ⟨"T.bass.mp3", true⟩]

/-- A recognizer raising "boom" on `bad.wav` and succeeding elsewhere. -/
def recogBad : String → RecogResult :=
  fun p => if p = "bad.wav" then .err "boom" else .ok

lemma foldl_stepFile_total (r : String → RecogResult) :
    ∀ (files : List String) (s : BatchStats),
      (files.foldl (stepFile r) s).total = s.total := by
  intro files
  induction files with
  | nil => intro s; rfl
  | cons p t ih =>
    intro s
    rw [List.foldl_cons, ih]
    cases hrp : r p <;> simp [stepFile, hrp]

lemma foldl_stepFile_success (r : String → RecogResult) :
    ∀ (files : List String) (s : BatchStats),
      (files.foldl (stepFile r) s).success
        = s.success + files.countP (fun p => (r p).isOk) := by
  intro files
  induction files with
  | nil => intro s; simp
  | cons p t ih =>
    intro s
    rw [List.foldl_cons, ih, List.countP_cons]
    cases hrp : r p <;> (simp [stepFile, hrp, RecogResult.isOk]; try omega)

lemma foldl_stepFile_failed (r : String → RecogResult) :
    ∀ (files : List String) (s : BatchStats),
      (files.foldl (stepFile r) s).failed
        = s.failed + files.countP (fun p => (r p).isErr) := by
  intro files
  induction files with
  | nil => intro s; simp
  | cons p t ih =>
    intro s
    rw [List.foldl_cons, ih, List.countP_cons]
    cases hrp : r p <;> (simp [stepFile, hrp, RecogResult.isErr]; try omega)

lemma foldl_stepFile_errors (r : String → RecogResult) :
    ∀ (files : List String) (s : BatchStats),
      (files.foldl (stepFile r) s).errors
        = s.errors ++ files.filterMap (errRecordOf r) := by
  intro files
  induction files with
  | nil => intro s; simp
  | cons p t ih =>
    intro s
    rw [List.foldl_cons, ih, List.filterMap_cons]
    cases hrp : r p <;> simp [stepFile, hrp, errRecordOf]

lemma countP_isOk_add_isErr (r : String → RecogResult) (files : List String) :
    files.countP (fun p => (r p).isOk) + files.countP (fun p => (r p).isErr)
      = files.length := by
  induction files with
  | nil => simp
  | cons p t ih =>
    rw [List.countP_cons, List.countP_cons]
    cases hrp : r p <;>
      simp [hrp, RecogResult.isOk, RecogResult.isErr] at ih ⊢ <;> omega

/- ===== helper lemmas : ensemble averaging ===== -/

lemma npMeanAxis0_pair (u v : List ℚ) :
    npMeanAxis0 [u, v] = List.zipWith (fun x y => (x + y) / 2) u v := by
  simp only [npMeanAxis0, npSumAxis0, List.foldl_cons, List.foldl_nil, vecAdd,
    List.map_zipWith, List.length_cons, List.length_nil]
  norm_num

lemma range_map_getD_zipWith {α β γ : Type} (g : α → β → γ) (da : α) (db : β) :
    ∀ (a : List α) (b : List β), a.length = b.length →
      (List.range a.length).map (fun i => g (a.getD i da) (b.getD i db))
        = List.zipWith g a b := by
  intro a
  induction a with
  | nil => intro b hb; simp
  | cons x xs ih =>
    intro b hb
    cases b with
    | nil => simp at hb
    | cons y ys =>
      simp only [List.length_cons, Nat.succ.injEq] at hb
      rw [List.length_cons, List.range_succ_eq_map, List.map_cons, List.map_map]
      simp only [Function.comp_def, List.getD_cons_succ, List.getD_cons_zero]
      rw [ih ys hb, List.zipWith_cons_cons]

/- ===== claim theorems : ensemble averaging ===== -/

/-- C1: with two models whose outputs `a` and `b` are indexed the same way
(equal frame count; vectors at matching indices), the ensemble output is the
elementwise unweighted arithmetic mean `(a+b)/2` at every frame index. -/
theorem C1_ensemble_mean (a b : List (List ℚ)) (hab : a.length = b.length) :
    ensembleAverage [a, b]
      = List.zipWith (fun u v => List.zipWith (fun x y => (x + y) / 2) u v) a b := by
  show (List.range a.length).map
      (fun i => npMeanAxis0 [a.getD i [], b.getD i []]) = _
  rw [range_map_getD_zipWith (fun u v => npMeanAxis0 [u, v]) [] [] a b hab]
  simp only [npMeanAxis0_pair]

/- ===== claim theorems : batch runner ===== -/

/-- C2: after `estimate_chords_batch` over any list of input files and any
per-file recognition behaviour, the statistics satisfy
`success + failed = total`, and `total` is the number of input files. -/
theorem C2_batch_stats_invariant (recognize : String → RecogResult)
    (wav_files : List String) :
    (estimate_chords_batch recognize wav_files).success
        + (estimate_chords_batch recognize wav_files).failed
      = (estimate_chords_batch recognize wav_files).total ∧
    (estimate_chords_batch recognize wav_files).total = wav_files.length := by
  unfold estimate_chords_batch
  constructor
  · rw [foldl_stepFile_success, foldl_stepFile_failed, foldl_stepFile_total]
    simpa using countP_isOk_add_isErr recognize wav_files
  · rw [foldl_stepFile_total]

/-- C3: whenever a batch run completes (reaches its final `sys.exit` with
statistics computed), the exit code is 0 exactly when the failed counter is
0, and is 1 for any nonzero failed count. -/
theorem C3_exit_code (env : BatchEnv) (c : Nat) (st : BatchStats)
    (h : batch_main env = .exited c (some st)) :
    (c = 0 ↔ st.failed = 0) ∧ (st.failed ≠ 0 → c = 1) := by
  unfold batch_main at h
  split at h
  · exact absurd h (by simp)
  · split at h
    · exact absurd h (by simp)
    · rw [MainOutcome.exited.injEq, Option.some.injEq] at h
      obtain ⟨hc, hst⟩ := h
      subst hst
      by_cases hf : (estimate_chords_batch env.recognize env.wavFiles).failed = 0
      · rw [if_pos hf] at hc
        subst hc
        simp [hf]
      · rw [if_neg hf] at hc
        subst hc
        simp [hf]

/-- C4: a file whose recognition raises is caught: its error record (file
name, lab output name, message) lands in the statistics, the failed counter
counts every raising file of the whole list, and the success counter counts
every succeeding file of the whole list — including the files after the
raising one, so the batch is not aborted. -/
theorem C4_error_isolated (r : String → RecogResult) (pre post : List String)
    (f e : String) (hf : r f = .err e) :
    errRecord f e ∈ (estimate_chords_batch r (pre ++ f :: post)).errors ∧
    (estimate_chords_batch r (pre ++ f :: post)).failed
      = (pre ++ f :: post).countP (fun p => (r p).isErr) ∧
    (estimate_chords_batch r (pre ++ f :: post)).success
      = (pre ++ f :: post).countP (fun p => (r p).isOk) := by
  unfold estimate_chords_batch
  rw [foldl_stepFile_errors, foldl_stepFile_failed, foldl_stepFile_success]
  refine ⟨?_, by simp, by simp⟩
  simp only [List.nil_append]
  exact List.mem_filterMap.mpr ⟨f, by simp, by simp [errRecordOf, hf]⟩

/-- C8: when the input directory does not exist or no wav file is found, the
process exits nonzero — via the uncaught `FileNotFoundError` or via
`sys.exit(1)` — and the batch (per-file recognition) never starts. -/
theorem C8_missing_input (env : BatchEnv)
    (h : env.inputDirExists = false ∨ env.wavFiles = []) :
    processExitCode (batch_main env) ≠ 0 ∧
    (batch_main env = .raisedNotFound "入力ディレクトリが見つかりません" ∨
      batch_main env = .exited 1 none) := by
  rcases h with h | h
  · simp [batch_main, h, processExitCode]
  · by_cases hd : env.inputDirExists = false
    · simp [batch_main, hd, processExitCode]
    · simp [batch_main, hd, h, processExitCode]

/- ===== helper lemmas : mixed-stem archive processing ===== -/

lemma processTracks_all_ok (runCmd : List String → Nat) (tmp : String → TempFiles)
    (files : List String) (h : ∀ c, runCmd c = 0) :
    ∀ tids : List String,
      (processTracks runCmd tmp files tids).2
        = .ok ((tids.filter (bothStems files)).map
            (fun tid => basename tid ++ ".lab")) := by
  intro tids
  induction tids with
  | nil => rfl
  | cons tid rest ih =>
    by_cases hb : bothStems files tid
    · simp [processTracks, hb, h, ih]
      rfl
    · simp [processTracks, hb, ih]

lemma processTracks_skip (runCmd : List String → Nat) (tmp : String → TempFiles)
    (files : List String) (tid : String) (hb : bothStems files tid = false) :
    ∀ pre post : List String,
      processTracks runCmd tmp files (pre ++ tid :: post)
        = processTracks runCmd tmp files (pre ++ post) := by
  intro pre
  induction pre with
  | nil => intro post; simp [processTracks, hb]
  | cons q qs ih =>
    intro post
    simp only [List.cons_append]
    by_cases hq : bothStems files q
    · simp only [processTracks, hq, if_true, ih]
    · simp only [processTracks, hq, if_false, ih]

/- ===== claim theorems : mixed-stem archive processing ===== -/

/-- C5 (amended): when every external mix invocation succeeds, the run writes
exactly one lab file per track id having both stems — the track-id list is
duplicate-free and each eligible id contributes the single file
`basename(tid) + ".lab"`. -/
theorem C5_one_label_per_track (runCmd : List String → Nat)
    (tmp : String → TempFiles) (tar : List TarMember) (h : ∀ c, runCmd c = 0) :
    (process_tar_mixed_mp3s runCmd tmp tar).outcome
        = .ok (((trackIds tar).filter (bothStems (stemFiles tar))).map
            (fun tid => basename tid ++ ".lab")) ∧
      (trackIds tar).Nodup := by
  exact ⟨processTracks_all_ok runCmd tmp (stemFiles tar) h (trackIds tar),
    List.nodup_dedup _⟩

/-- C5 counterexample: a track id containing a directory component gets its
lab file named after the basename, not the full track id — for the archive
holding `d/A.other.mp3` and `d/A.bass.mp3`, track id `d/A` has both stems,
yet the run writes `A.lab` and no file named `d/A.lab`. -/
theorem C5_counterexample :
    "d/A" ∈ trackIds [⟨"d/A.other.mp3", true⟩, ⟨"d/A.bass.mp3", true⟩] ∧
    bothStems (stemFiles [⟨"d/A.other.mp3", true⟩, ⟨"d/A.bass.mp3", true⟩]) "d/A"
      = true ∧
    (process_tar_mixed_mp3s (fun _ => 0) (fun _ => ⟨"to", "tb", "tm"⟩)
        [⟨"d/A.other.mp3", true⟩, ⟨"d/A.bass.mp3", true⟩]).outcome
      = .ok ["A.lab"] ∧
    "d/A.lab" ∉ ["A.lab"] :=
  ⟨by decide, by decide, rfl, by decide⟩

/-- C6: a track id whose required stems are not both present is a no-op of
the per-track loop: the whole run (commands invoked and outcome) is the one
obtained by dropping that id from the processed list — no lab file, no
error, the other tracks unaffected. -/
theorem C6_missing_stem_skipped (runCmd : List String → Nat)
    (tmp : String → TempFiles) (tar : List TarMember) (tid : String)
    (hmem : tid ∈ trackIds tar)
    (hb : bothStems (stemFiles tar) tid = false) :
    processTracks runCmd tmp (stemFiles tar) (trackIds tar)
        = processTracks runCmd tmp (stemFiles tar) ((trackIds tar).erase tid) ∧
      (process_tar_mixed_mp3s runCmd tmp tar).outcome
        = (processTracks runCmd tmp (stemFiles tar) ((trackIds tar).erase tid)).2 ∧
      (process_tar_mixed_mp3s runCmd tmp tar).invoked
        = (processTracks runCmd tmp (stemFiles tar) ((trackIds tar).erase tid)).1 := by
  obtain ⟨l1, l2, -, hsplit, herase⟩ := List.exists_erase_eq hmem
  have key : processTracks runCmd tmp (stemFiles tar) (trackIds tar)
      = processTracks runCmd tmp (stemFiles tar) ((trackIds tar).erase tid) := by
    rw [herase, hsplit]
    exact processTracks_skip runCmd tmp (stemFiles tar) tid hb l1 l2
  exact ⟨key, by rw [process_tar_mixed_mp3s, key], by rw [process_tar_mixed_mp3s, key]⟩

/-- C7 (amended): the 2-track scenario — track `A` with both stems, track
`B` with only the other stem — writes exactly one lab file `A.lab`, invokes
the mixer once, raises nothing, and reports "Found 2 tracks" (the reported
count covers every track id with an other-stem file, eligible or not). -/
theorem C7_two_track_scenario :
    (process_tar_mixed_mp3s (fun _ => 0) (fun _ => ⟨"to", "tb", "tm"⟩)
        [⟨"A.other.mp3", true⟩, ⟨"A.bass.mp3", true⟩, ⟨"B.other.mp3", true⟩]).outcome
      = .ok ["A.lab"] ∧
    (process_tar_mixed_mp3s (fun _ => 0) (fun _ => ⟨"to", "tb", "tm"⟩)
        [⟨"A.other.mp3", true⟩, ⟨"A.bass.mp3", true⟩, ⟨"B.other.mp3", true⟩]).invoked.length
      = 1 ∧
    (process_tar_mixed_mp3s (fun _ => 0) (fun _ => ⟨"to", "tb", "tm"⟩)
        [⟨"A.other.mp3", true⟩, ⟨"A.bass.mp3", true⟩, ⟨"B.other.mp3", true⟩]).message
      = "Found 2 tracks with \x27other.mp3\x27 files." :=
  ⟨rfl, rfl, rfl⟩

/-- C7 counterexample: in that same scenario the code reports
"Found 2 tracks with 'other.mp3' files.", not "Found 1 tracks ..." — the
count is taken before the both-stems check. -/
theorem C7_counterexample :
    (process_tar_mixed_mp3s (fun _ => 0) (fun _ => ⟨"to", "tb", "tm"⟩)
        [⟨"A.other.mp3", true⟩, ⟨"A.bass.mp3", true⟩, ⟨"B.other.mp3", true⟩]).message
        = "Found 2 tracks with \x27other.mp3\x27 files." ∧
      (process_tar_mixed_mp3s (fun _ => 0) (fun _ => ⟨"to", "tb", "tm"⟩)
          [⟨"A.other.mp3", true⟩, ⟨"A.bass.mp3", true⟩, ⟨"B.other.mp3", true⟩]).message
        ≠ "Found 1 tracks with \x27other.mp3\x27 files." :=
  ⟨rfl, by decide⟩

/-- C9: the mixing command carries the overwrite flag `-y`, the two stem
inputs and the output path last; when it exits nonzero for an eligible
track, the per-track loop stops right there with that exit status — the
command was invoked exactly once (no retry) and no lab file is recorded for
that track or any later one. -/
theorem C9_mix_failure_propagates (runCmd : List String → Nat)
    (tmp : String → TempFiles) (files : List String) (tid : String)
    (rest : List String) (hb : bothStems files tid = true)
    (hc : runCmd (ffmpegCmd (tmp tid).other (tmp tid).bass (tmp tid).mix) ≠ 0) :
    processTracks runCmd tmp files (tid :: rest)
        = ([ffmpegCmd (tmp tid).other (tmp tid).bass (tmp tid).mix],
           .error (runCmd (ffmpegCmd (tmp tid).other (tmp tid).bass (tmp tid).mix))) ∧
      "-y" ∈ ffmpegCmd (tmp tid).other (tmp tid).bass (tmp tid).mix ∧
      (tmp tid).other ∈ ffmpegCmd (tmp tid).other (tmp tid).bass (tmp tid).mix ∧
      (tmp tid).bass ∈ ffmpegCmd (tmp tid).other (tmp tid).bass (tmp tid).mix ∧
      (ffmpegCmd (tmp tid).other (tmp tid).bass (tmp tid).mix).getD 10 ""
        = (tmp tid).mix := by
  refine ⟨?_, by simp [ffmpegCmd], by simp [ffmpegCmd], by simp [ffmpegCmd], by rfl⟩
  simp [processTracks, hb, hc]

/-- C10: invoked with an argument count other than two or three (so an argv
length, script name included, other than 3 or 4), the entry point prints the
usage text and exits with status 0, performing no recognition. -/
theorem C10_usage_exit_zero (argv : List String)
    (h3 : argv.length ≠ 3) (h4 : argv.length ≠ 4) :
    chordRecognitionCli argv = .usageExit 0 := by
  simp [chordRecognitionCli, h3, h4]

/- ===== witnesses ===== -/

/-- Witness for C1: two one-frame models with vectors (1/2, 1/2) and
(1/4, 3/4). -/
theorem C1_ensemble_mean_witness :
    ([[(1 : ℚ)/2, 1/2]] : List (List ℚ)).length
        = ([[(1 : ℚ)/4, 3/4]] : List (List ℚ)).length ∧
      ensembleAverage [[[(1 : ℚ)/2, 1/2]], [[(1 : ℚ)/4, 3/4]]]
        = List.zipWith (fun u v => List.zipWith (fun x y => (x + y) / 2) u v)
            [[(1 : ℚ)/2, 1/2]] [[(1 : ℚ)/4, 3/4]] :=
  ⟨rfl, C1_ensemble_mean [[(1 : ℚ)/2, 1/2]] [[(1 : ℚ)/4, 3/4]] rfl⟩

/-- Witness for C3: a completed one-file run with no failures exits 0. -/
theorem C3_exit_code_witness :
    batch_main ⟨true, ["a.wav"], fun _ => RecogResult.ok⟩
        = .exited 0 (some ⟨1, 1, 0, []⟩) ∧
      (((0 : Nat) = 0 ↔ (⟨1, 1, 0, []⟩ : BatchStats).failed = 0) ∧
        ((⟨1, 1, 0, []⟩ : BatchStats).failed ≠ 0 → (0 : Nat) = 1)) :=
  ⟨by decide,
    C3_exit_code ⟨true, ["a.wav"], fun _ => .ok⟩ 0 ⟨1, 1, 0, []⟩ (by decide)⟩

/-- Witness for C4: a three-file batch whose middle file raises "boom". -/
theorem C4_error_isolated_witness :
    recogBad "bad.wav" = .err "boom" ∧
      (errRecord "bad.wav" "boom" ∈
          (estimate_chords_batch recogBad (["a.wav"] ++ "bad.wav" :: ["c.wav"])).errors ∧
        (estimate_chords_batch recogBad (["a.wav"] ++ "bad.wav" :: ["c.wav"])).failed
          = (["a.wav"] ++ "bad.wav" :: ["c.wav"]).countP (fun p => (recogBad p).isErr) ∧
        (estimate_chords_batch recogBad (["a.wav"] ++ "bad.wav" :: ["c.wav"])).success
          = (["a.wav"] ++ "bad.wav" :: ["c.wav"]).countP (fun p => (recogBad p).isOk)) :=
  ⟨by decide, C4_error_isolated recogBad ["a.wav"] ["c.wav"] "bad.wav" "boom" (by decide)⟩

/-- Witness for C5 (amended): an archive with both stems for `T` yields the
single lab file of `T`. -/
theorem C5_one_label_per_track_witness :
    (process_tar_mixed_mp3s runCmd0 tmp0 tarT).outcome
        = .ok (((trackIds tarT).filter (bothStems (stemFiles tarT))).map
            (fun tid => basename tid ++ ".lab")) ∧
      (trackIds tarT).Nodup :=
  C5_one_label_per_track runCmd0 tmp0 tarT (fun _ => rfl)

/-- Witness for C6: track `B` of the 2-track archive is missing its bass
stem; dropping it from the processed list changes nothing. -/
theorem C6_missing_stem_skipped_witness :
    "B" ∈ trackIds tarAB ∧ bothStems (stemFiles tarAB) "B" = false ∧
      (processTracks runCmd0 tmp0 (stemFiles tarAB) (trackIds tarAB)
          = processTracks runCmd0 tmp0 (stemFiles tarAB) ((trackIds tarAB).erase "B") ∧
        (process_tar_mixed_mp3s runCmd0 tmp0 tarAB).outcome
          = (processTracks runCmd0 tmp0 (stemFiles tarAB) ((trackIds tarAB).erase "B")).2 ∧
        (process_tar_mixed_mp3s runCmd0 tmp0 tarAB).invoked
          = (processTracks runCmd0 tmp0 (stemFiles tarAB) ((trackIds tarAB).erase "B")).1) :=
  ⟨by decide, by decide,
    C6_missing_stem_skipped runCmd0 tmp0 tarAB "B" (by decide) (by decide)⟩

/-- Witness for C8: missing input directory, so the run never reaches
per-file recognition and exits nonzero. -/
theorem C8_missing_input_witness :
    processExitCode (batch_main ⟨false, [], fun _ => RecogResult.ok⟩) ≠ 0 ∧
      (batch_main ⟨false, [], fun _ => RecogResult.ok⟩
          = .raisedNotFound "入力ディレクトリが見つかりません" ∨
        batch_main ⟨false, [], fun _ => RecogResult.ok⟩ = .exited 1 none) :=
  C8_missing_input ⟨false, [], fun _ => RecogResult.ok⟩ (Or.inl rfl)

/-- Witness for C9: the single eligible track `T` whose mix command exits 1:
one invocation, error 1 out of the loop. -/
theorem C9_mix_failure_propagates_witness :
    bothStems ["T.other.mp3", "T.bass.mp3"] "T" = true ∧
      (processTracks runCmd1 tmp0 ["T.other.mp3", "T.bass.mp3"] ["T"]
          = ([ffmpegCmd "to" "tb" "tm"], .error 1) ∧
        "-y" ∈ ffmpegCmd "to" "tb" "tm" ∧
        "to" ∈ ffmpegCmd "to" "tb" "tm" ∧
        "tb" ∈ ffmpegCmd "to" "tb" "tm" ∧
        (ffmpegCmd "to" "tb" "tm").getD 10 "" = "tm") :=
  ⟨by decide,
    C9_mix_failure_propagates runCmd1 tmp0 ["T.other.mp3", "T.bass.mp3"] "T" []
      (by decide) (by decide)⟩

/-- Witness for C10: a bare invocation (argv of length 1) prints usage and
exits 0. -/
theorem C10_usage_exit_zero_witness :
    (["chord_recognition.py"] : List String).length ≠ 3 ∧
      (["chord_recognition.py"] : List String).length ≠ 4 ∧
      chordRecognitionCli ["chord_recognition.py"] = .usageExit 0 :=
  ⟨by decide, by decide,
    C10_usage_exit_zero ["chord_recognition.py"] (by decide) (by decide)⟩

end ChordRec
